import Mathlib

/-!
Verification of the network-simulation and stream-consumption core of the
REST-vs-MCP benchmark repository, as a shallow embedding in Lean 4.

Source files embedded:
  * `src/clients/network_sim.py`   (`NetworkSimulator`)
  * `src/clients/mcp_client.py`    (`connect_sse`, `listen_for_events`, `_send_request_async`)
  * `src/benchmarks/run_benchmark_advanced.py` (scenario functions, `run_all_benchmarks`)

Modelling conventions:
  * Python floats are modelled as `ℚ` (exact arithmetic; no claim here is about
    floating-point rounding).
  * `random.random()` is modelled by an oracle stream `rng : ℕ → ℚ` together
    with a cursor `k : ℕ`; a call that draws consumes one value and advances
    the cursor.  Python short-circuit evaluation of
    `self.packet_loss_rate > 0 and random.random() < self.packet_loss_rate`
    is kept: the draw happens only when the rate check passed.
  * `await asyncio.sleep(s)` and the remote HTTP call become observable events
    in an ordered event list; a raised `ConnectionError` ("Simulated Network
    Packet Loss") becomes a `dropped` flag, meaning the function aborted after
    the events it had already performed.
  * A Python `ZeroDivisionError` becomes `Option.none`.
-/

namespace RestVsMcp

/-- Observable effect of a simulated call, in order of occurrence. -/
inductive NetEvent where
  | sleep (seconds : ℚ)
  | remoteCall
  deriving DecidableEq, Repr

/-- Result of one simulated network interaction: the ordered effects, whether
a `ConnectionError` was raised after them, and the rng cursor afterwards. -/
structure SimOutcome where
  events : List NetEvent
  dropped : Bool
  next : ℕ
  deriving DecidableEq, Repr

/-- The three condition fields of `NetworkSimulator.__init__` /
`set_conditions` in `src/clients/network_sim.py`. -/
structure NetworkSimulator where
  latency_ms : ℚ
  packet_loss_rate : ℚ
  bandwidth_mbps : ℚ
  deriving DecidableEq, Repr

/-- `NetworkSimulator.simulate_network` (network_sim.py, lines 11-20):

    if self.packet_loss_rate > 0 and random.random() < self.packet_loss_rate:
        await asyncio.sleep(self.latency_ms / 1000.0)
        raise ConnectionError("Simulated Network Packet Loss")
    if self.latency_ms > 0:
        await asyncio.sleep(self.latency_ms / 1000.0)

The draw is consumed only when `packet_loss_rate > 0` (Python `and`
short-circuits), which the cursor arithmetic reflects. -/
def simulate_network (sim : NetworkSimulator) (rng : ℕ → ℚ) (k : ℕ) : SimOutcome :=
  if 0 < sim.packet_loss_rate then
    if rng k < sim.packet_loss_rate then
      { events := [NetEvent.sleep (sim.latency_ms / 1000)], dropped := true, next := k + 1 }
    else if 0 < sim.latency_ms then
      { events := [NetEvent.sleep (sim.latency_ms / 1000)], dropped := false, next := k + 1 }
    else
      { events := [], dropped := false, next := k + 1 }
  else if 0 < sim.latency_ms then
    { events := [NetEvent.sleep (sim.latency_ms / 1000)], dropped := false, next := k }
  else
    { events := [], dropped := false, next := k }

/-- `NetworkSimulator.simulate_transfer` (network_sim.py, lines 22-34):

    await self.simulate_network()   # exception propagates
    if self.bandwidth_mbps > 0:
        bits = bytes_count * 8
        bits_per_second = self.bandwidth_mbps * 1_000_000
        transfer_time = bits / bits_per_second
        await asyncio.sleep(transfer_time)

`none` models a `ZeroDivisionError` from the division (unreachable because
the branch requires `bandwidth_mbps > 0`, but kept as the faithful image of
the partial division). -/
def simulate_transfer (sim : NetworkSimulator) (bytes_count : ℤ)
    (rng : ℕ → ℚ) (k : ℕ) : Option SimOutcome :=
  let o := simulate_network sim rng k
  if o.dropped then some o
  else if 0 < sim.bandwidth_mbps then
    let bits : ℚ := (bytes_count : ℚ) * 8
    let bits_per_second : ℚ := sim.bandwidth_mbps * 1000000
    if bits_per_second = 0 then none
    else some { events := o.events ++ [NetEvent.sleep (bits / bits_per_second)],
                dropped := false, next := o.next }
  else some o

/-- `McpClient._send_request_async` (mcp_client.py, lines 40-52), reduced to
its network-visible behaviour:

    await self.network_sim.simulate_network()   # exception propagates
    ...
    response = await self.async_client.post("/message", json=payload)

If `simulate_network` raises, control never reaches the HTTP POST, so no
`remoteCall` event is emitted. -/
def send_request_async (sim : NetworkSimulator) (rng : ℕ → ℚ) (k : ℕ) : SimOutcome :=
  let o := simulate_network sim rng k
  if o.dropped then o
  else { events := o.events ++ [NetEvent.remoteCall], dropped := false, next := o.next }

/-- Repeated calls of `simulate_network` on one simulator, threading the rng
cursor (models "any number of trials"). -/
def simulate_network_trials (sim : NetworkSimulator) (rng : ℕ → ℚ) :
    ℕ → ℕ → List SimOutcome
  | _, 0 => []
  | k, n + 1 =>
    let o := simulate_network sim rng k
    o :: simulate_network_trials sim rng o.next n

/-!
## SSE stream consumption (`src/clients/mcp_client.py`)

A parsed JSON value (the result of a successful `json.loads`).  The textual
parse itself is an oracle: each stream line carries its parse outcome
(`Option Json`, `none` for a payload `json.loads` rejects), since the claims
are about what the client does with the outcome, not about JSON grammar.
-/

/-- Parsed JSON value, as produced by `json.loads`.  Objects are the Python
dict after parsing, so keys are unique. -/
inductive Json where
  | jnull
  | jbool (b : Bool)
  | jnum (q : ℚ)
  | jstr (s : String)
  | jarr (elems : List Json)
  | jobj (fields : List (String × Json))

/-- Python `dict.get(key)` on the field list of a parsed object. -/
def dictGet : List (String × Json) → String → Option Json
  | [], _ => none
  | (k, v) :: rest, key => if k == key then some v else dictGet rest key

/-- The terminal-event test of `listen_for_events` (mcp_client.py line 88):

    msg.get("params", {}).get("status") == "completed"

evaluated inside the surrounding bare `except`.  An `AttributeError` (when
`msg` or `msg.get("params", {})` is not a dict) is caught by that `except`
and, like a non-"completed" status, does not break the loop — both are
`false` here.  Note the event was already appended before this test runs. -/
def isCompleted (msg : Json) : Bool :=
  match msg with
  | Json.jobj fields =>
    match dictGet fields "params" with
    | none => false
    | some (Json.jobj pf) =>
      match dictGet pf "status" with
      | some (Json.jstr s) => s == "completed"
      | _ => false
    | some _ => false
  | _ => false

/-- One line delivered by `response.aiter_lines()` in `listen_for_events`,
with the wall-clock value `time.time() - start` observed when the loop body
checks the duration for that line.  `readTimeout` stands for an
`httpx.ReadTimeout` raised by the read itself (caught by the outer
`except httpx.ReadTimeout: pass`). -/
inductive SseItem where
  | dataLine (payload : Option Json)
  | otherLine
  | readTimeout

/-- `McpClient.listen_for_events` (mcp_client.py, lines 75-94) on a stream of
timestamped lines:

    events = []
    start = time.time()
    try:
        async for line in response.aiter_lines():
            if time.time() - start > duration: break
            if line.startswith("data: "):
                data = line[6:]
                try:
                    msg = json.loads(data)
                    events.append(msg)
                    if msg.get("params", {}).get("status") == "completed": break
                except: pass
    except httpx.ReadTimeout: pass
    return events

Returning `[]` at a break point and consing collected events is the
accumulator-free form of the Python loop. -/
def listen_for_events (duration : ℚ) : List (ℚ × SseItem) → List Json
  | [] => []
  | (t, item) :: rest =>
    match item with
    | SseItem.readTimeout => []
    | SseItem.otherLine =>
      if duration < t then [] else listen_for_events duration rest
    | SseItem.dataLine none =>
      if duration < t then [] else listen_for_events duration rest
    | SseItem.dataLine (some msg) =>
      if duration < t then []
      else if isCompleted msg then [msg]
      else msg :: listen_for_events duration rest

/-- The parsed data-line payloads of a line list, in order: the events
`listen_for_events` would append if it processed every one of these lines. -/
def parsedMsgs (lines : List (ℚ × SseItem)) : List Json :=
  lines.filterMap fun p =>
    match p.2 with
    | SseItem.dataLine (some m) => some m
    | _ => none

/-- One line delivered by `response.aiter_lines()` in `connect_sse`.  A
`dataLine` carries the raw payload text after `"data: "` and its `json.loads`
outcome (`none` = parse failure). -/
inductive ConnLine where
  | eventConnection
  | dataLine (raw : String) (parsed : Option Json)
  | otherLine

/-- `McpClient.connect_sse` (mcp_client.py, lines 59-73):

    async for line in response.aiter_lines():
        if line.startswith("event: connection"): pass
        elif line.startswith("data: "):
            data = line[6:]
            try:
                msg = json.loads(data)
            except:
                self.session_id = data.strip()
                return self.session_id

A data line whose payload parses as JSON falls through and the loop
continues; only a parse FAILURE assigns and returns the session id.  `none`
means the function never returned a session id on this stream. -/
def connect_sse : List ConnLine → Option String
  | [] => none
  | line :: rest =>
    match line with
    | ConnLine.eventConnection => connect_sse rest
    | ConnLine.dataLine raw none => some raw.trim
    | ConnLine.dataLine _ (some _) => connect_sse rest
    | ConnLine.otherLine => connect_sse rest

/-!
## Multi-scenario batch (`src/benchmarks/run_benchmark_advanced.py`)

The scenario functions are embedded at the level their exception flow is
decided: which operations can raise, in which order, and which `try/except`
blocks surround them.  `Env.remoteFails = true` models both mock endpoints
being unreachable, so that every HTTP request (httpx POST/GET) raises
`ConnectError`.  Python's module-global `random.random()` stream is the
single oracle `Env.rng`, threaded across all clients.  Wall-clock latency
and byte counts are not modelled; a `Record` keeps the row's `protocol` and
`scenario` labels and, where the scenario computes one, its success rate.
-/

/-- Environment a batch run executes in. -/
structure Env where
  remoteFails : Bool
  rng : ℕ → ℚ

/-- One row appended to a scenario's `results` list. -/
structure Record where
  protocol : String
  scenario : String
  success_rate : Option ℚ
  deriving Repr

/-- Row with only the `protocol` and `scenario` labels. -/
def Record.plain (p s : String) : Record :=
  { protocol := p, scenario := s, success_rate := none }

/-- `bench_multi_turn_chat` (run_benchmark_advanced.py, lines 15-65): the REST
loop of `iterations` `chat_turn` calls, then the MCP session.  The body is a
`try ... finally` with NO `except` clause, so the first `httpx.ConnectError`
from `rest_client.chat_turn` (network conditions are at their defaults — no
loss, no latency — so the simulator never raises first) propagates to the
caller. -/
def bench_multi_turn_chat (env : Env) (iterations : ℕ) : Except String (List Record) :=
  if env.remoteFails then Except.error "httpx.ConnectError"
  else
    Except.ok
      ((List.range iterations).map (fun _ => Record.plain "REST" "Chat") ++
       (List.range iterations).map (fun _ => Record.plain "MCP" "Chat"))

/-- `bench_concurrency` (lines 66-115): `asyncio.gather` over `concurrency`
pings per protocol inside a `try ... finally` with no `except`; an unreachable
endpoint makes `gather` re-raise the first `ConnectError`. -/
def bench_concurrency (env : Env) (concurrency : ℕ) : Except String (List Record) :=
  if env.remoteFails then Except.error "httpx.ConnectError"
  else
    Except.ok
      ((List.range concurrency).map (fun _ => Record.plain "REST" "Concurrency") ++
       (List.range concurrency).map (fun _ => Record.plain "MCP" "Concurrency"))

/-- `bench_long_running` (lines 117-158): the REST polling part runs inside
the outer `try ... finally` with no `except`, so its `ConnectError`
propagates; only the MCP half sits in an inner `try/except` that prints a
"Skipping MCP Long Task" notice. -/
def bench_long_running (env : Env) : Except String (List Record) :=
  if env.remoteFails then Except.error "httpx.ConnectError"
  else
    Except.ok [Record.plain "REST" "Long Task", Record.plain "MCP" "Long Task"]

/-- `bench_stock_ticker` (lines 160-203): the whole body is wrapped in
`try ... except Exception`, so an unreachable endpoint yields an empty result
list (the first polling GET raises before any append) instead of an
exception. -/
def bench_stock_ticker (env : Env) (_duration : ℕ) : Except String (List Record) :=
  if env.remoteFails then Except.ok []
  else
    Except.ok [Record.plain "REST" "Stock Ticker", Record.plain "MCP" "Stock Ticker"]

/-- One attempt of the REST half of `bench_network_instability`:
`rest_client.echo_async("test")` = `await network_sim.simulate_network()`
then an HTTP POST.  Returns whether the attempt succeeded and the rng cursor
afterwards; any raise is caught by the per-attempt `except Exception: pass`. -/
def rest_echo_attempt (sim : NetworkSimulator) (remoteFails : Bool)
    (rng : ℕ → ℚ) (k : ℕ) : Bool × ℕ :=
  let o := simulate_network sim rng k
  if o.dropped then (false, o.next)
  else (!remoteFails, o.next)

/-- One attempt of the MCP half of `bench_network_instability`:
`mcp_client.chat_turn("session", "test", 1)` =
upload `simulate_transfer`, `_send_request_async` (its own `simulate_network`
plus the POST), then download `simulate_transfer`.  With `bandwidth_mbps = 0`
each `simulate_transfer` reduces to its `simulate_network` gate (claim C3),
and the bandwidth sleep draws nothing and cannot raise, so only the three
`simulate_network` gates and the POST decide success. -/
def chat_turn_attempt (sim : NetworkSimulator) (remoteFails : Bool)
    (rng : ℕ → ℚ) (k : ℕ) : Bool × ℕ :=
  let o1 := simulate_network sim rng k
  if o1.dropped then (false, o1.next)
  else
    let o2 := simulate_network sim rng o1.next
    if o2.dropped then (false, o2.next)
    else if remoteFails then (false, o2.next)
    else
      let o3 := simulate_network sim rng o2.next
      if o3.dropped then (false, o3.next)
      else (true, o3.next)

/-- The `for _ in range(attempts)` loop of `bench_network_instability`:
counts successes, threading the rng cursor through the attempts. -/
def count_successes (attempt : ℕ → Bool × ℕ) : ℕ → ℕ → ℕ × ℕ
  | k, 0 => (0, k)
  | k, n + 1 =>
    let (ok, k1) := attempt k
    let (s, k2) := count_successes attempt k1 n
    ((if ok then 1 else 0) + s, k2)

/-- `bench_network_instability` (lines 205-253): sets `(latency_ms, loss)` on
both clients, runs 20 attempts per protocol with every raise caught inside
the attempt loop, and reports `success_rate = successes / attempts * 100`.
It appends the REST record first, then the MCP record, and never raises. -/
def bench_network_instability (env : Env) (latency_ms : ℚ) (packet_loss : ℚ) :
    Except String (List Record) :=
  let sim : NetworkSimulator :=
    { latency_ms := latency_ms, packet_loss_rate := packet_loss, bandwidth_mbps := 0 }
  let restRun := count_successes (rest_echo_attempt sim env.remoteFails env.rng) 0 20
  let mcpRun := count_successes (chat_turn_attempt sim env.remoteFails env.rng) restRun.2 20
  Except.ok
    [⟨"REST", "Network Instability", some ((restRun.1 : ℚ) / 20 * 100)⟩,
     ⟨"MCP", "Network Instability", some ((mcpRun.1 : ℚ) / 20 * 100)⟩]

/-- `bench_tool_chaining` (lines 255-289): body wrapped in
`try ... except Exception`, so an unreachable endpoint yields an empty result
list (the first workflow POST raises before any append). -/
def bench_tool_chaining (env : Env) : Except String (List Record) :=
  if env.remoteFails then Except.ok []
  else
    Except.ok [Record.plain "REST" "Tool Chaining", Record.plain "MCP" "Tool Chaining"]

/-- `bench_real_world_chat` (lines 291-341): `await mcp_client.initialize_async()`
runs BEFORE the `try` block (conditions are 50ms latency, zero loss, so the
simulator cannot raise first), so its `ConnectError` propagates out of the
scenario. -/
def bench_real_world_chat (env : Env) (turns : ℕ) : Except String (List Record) :=
  if env.remoteFails then Except.error "httpx.ConnectError"
  else
    Except.ok
      ((List.range turns).map (fun _ => Record.plain "REST" "Real-World Chat") ++
       (List.range turns).map (fun _ => Record.plain "MCP" "Real-World Chat"))

/-- `run_all_benchmarks` (run_benchmark_advanced.py, lines 453-486): runs the
seven scenarios in order with NO surrounding `try/except`; an exception from
any scenario aborts the batch before the remaining scenarios run.  (The
final DataFrame/CSV/report writing is presentation and not modelled.) -/
def run_all_benchmarks (env : Env) : Except String (List Record) := do
  let r1 ← bench_multi_turn_chat env 20
  let r2 ← bench_concurrency env 50
  let r3 ← bench_long_running env
  let r4 ← bench_stock_ticker env 5
  let r5 ← bench_network_instability env 100 (1 / 10)
  let r6 ← bench_tool_chaining env
  let r7 ← bench_real_world_chat env 15
  Except.ok (r1 ++ r2 ++ r3 ++ r4 ++ r5 ++ r6 ++ r7)

/-- Constant-zero random oracle, used to instantiate theorems at concrete
inputs. -/
def rngZero : ℕ → ℚ := fun _ => 0

/-!
## Theorems
-/

/-- Claim C1: when the loss draw triggers (`packet_loss_rate > 0` and the
drawn `r < packet_loss_rate`), `simulate_network` first sleeps for
`latency_ms / 1000` seconds and only then raises, and the calling
`_send_request_async` never reaches its HTTP POST — a dropped exchange pays
the configured latency, it is not an instant failure that skips it. -/
theorem claim_C1_drop_pays_latency (sim : NetworkSimulator) (rng : ℕ → ℚ) (k : ℕ)
    (h1 : 0 < sim.packet_loss_rate) (h2 : rng k < sim.packet_loss_rate) :
    simulate_network sim rng k =
      { events := [NetEvent.sleep (sim.latency_ms / 1000)], dropped := true, next := k + 1 } ∧
    send_request_async sim rng k = simulate_network sim rng k ∧
    NetEvent.remoteCall ∉ (send_request_async sim rng k).events := by
  have e : simulate_network sim rng k =
      { events := [NetEvent.sleep (sim.latency_ms / 1000)], dropped := true, next := k + 1 } := by
    simp [simulate_network, h1, h2]
  refine ⟨e, ?_, ?_⟩ <;> simp [send_request_async, e]

/-- Witness for C1 at latency 100ms, loss rate 1/2, draw 0. -/
theorem claim_C1_drop_pays_latency_witness :
    (0 : ℚ) < 1 / 2 ∧ rngZero 0 < 1 / 2 ∧
    simulate_network ⟨100, 1 / 2, 0⟩ rngZero 0 =
      { events := [NetEvent.sleep (100 / 1000)], dropped := true, next := 1 } ∧
    NetEvent.remoteCall ∉ (send_request_async ⟨100, 1 / 2, 0⟩ rngZero 0).events := by
  have h := claim_C1_drop_pays_latency ⟨100, 1 / 2, 0⟩ rngZero 0
    (by norm_num) (by norm_num [rngZero])
  exact ⟨by norm_num, by norm_num [rngZero], h.1, h.2.2⟩

/-- The zero-loss evaluation of `simulate_network`: no drop and no draw. -/
theorem simulate_network_rate_zero (sim : NetworkSimulator) (rng : ℕ → ℚ) (k : ℕ)
    (h : sim.packet_loss_rate = 0) :
    simulate_network sim rng k =
      { events := if 0 < sim.latency_ms then [NetEvent.sleep (sim.latency_ms / 1000)] else [],
        dropped := false, next := k } := by
  by_cases hl : 0 < sim.latency_ms <;> simp [simulate_network, h, hl]

/-- Claim C2: with `packet_loss_rate = 0`, `simulate_network` never raises the
drop error, for any oracle and any number of consecutive trials, and it never
consumes a random draw (the draw is short-circuited behind the rate check):
the cursor is returned unchanged. -/
theorem claim_C2_zero_loss_deterministic (sim : NetworkSimulator) (rng : ℕ → ℚ)
    (h : sim.packet_loss_rate = 0) :
    (∀ n k, ∀ o ∈ simulate_network_trials sim rng k n, o.dropped = false) ∧
    (∀ k, (simulate_network sim rng k).next = k) := by
  constructor
  · intro n
    induction n with
    | zero => intro k o ho; simp [simulate_network_trials] at ho
    | succ n ih =>
      intro k o ho
      simp only [simulate_network_trials, List.mem_cons] at ho
      rcases ho with rfl | ho
      · rw [simulate_network_rate_zero sim rng k h]
      · exact ih _ o ho
  · intro k
    rw [simulate_network_rate_zero sim rng k h]

/-- Witness for C2 at latency 50ms, loss rate 0, draw stream 0. -/
theorem claim_C2_zero_loss_deterministic_witness :
    (simulate_network ⟨50, 0, 0⟩ rngZero 0).dropped = false ∧
    (simulate_network ⟨50, 0, 0⟩ rngZero 0).next = 0 := by
  have h := claim_C2_zero_loss_deterministic ⟨50, 0, 0⟩ rngZero rfl
  refine ⟨h.1 1 0 _ ?_, h.2 0⟩
  simp [simulate_network_trials]

/-- Claim C3: with `bandwidth_mbps = 0` the bandwidth branch of
`simulate_transfer` is unreachable: for every byte count the call performs
exactly what `simulate_network` performs, adds no sleep, and no
`ZeroDivisionError` occurs (the result is `some`, never `none`). -/
theorem claim_C3_zero_bandwidth_no_extra_delay (sim : NetworkSimulator) (n : ℤ)
    (rng : ℕ → ℚ) (k : ℕ) (hb : sim.bandwidth_mbps = 0) (_hn : 0 ≤ n) :
    simulate_transfer sim n rng k = some (simulate_network sim rng k) := by
  cases h : (simulate_network sim rng k).dropped <;>
    simp [simulate_transfer, hb, h]

/-- Witness for C3 at latency 50ms, zero loss, zero bandwidth, 12345 bytes. -/
theorem claim_C3_zero_bandwidth_no_extra_delay_witness :
    (0 : ℤ) ≤ 12345 ∧
    simulate_transfer ⟨50, 0, 0⟩ 12345 rngZero 0 = some (simulate_network ⟨50, 0, 0⟩ rngZero 0) := by
  exact ⟨by norm_num,
    claim_C3_zero_bandwidth_no_extra_delay ⟨50, 0, 0⟩ 12345 rngZero 0 rfl (by norm_num)⟩

/-- Claim C4, counterexample: the claim's example says that with
`bandwidth_mbps = 8` and `byte_count = 100` the extra delay is 100 seconds;
the code's formula `(100 * 8) / (8 * 1_000_000)` gives `1/10000` of a second
(0.1 ms), not 100 seconds. -/
theorem claim_C4_example_counterexample :
    simulate_transfer ⟨0, 0, 8⟩ 100 rngZero 0 =
      some { events := [NetEvent.sleep (1 / 10000)], dropped := false, next := 0 } ∧
    (1 / 10000 : ℚ) ≠ 100 := by
  constructor
  · norm_num [simulate_transfer, simulate_network]
  · norm_num

/-- Claim C4 as amended: with `bandwidth_mbps > 0` and `byte_count = n ≥ 0`,
`simulate_transfer` first performs `simulate_network` (so the loss/latency
gate applies to every transfer); if that does not drop, it appends exactly one
additional sleep of `(n * 8) / (bandwidth_mbps * 1_000_000)` seconds, and if
it drops, no transfer sleep happens.  (With `bandwidth_mbps = 8` and
`n = 100` the extra delay is `1/10000` s; the spec's "100 seconds" example
would need `bandwidth_mbps = 8e-6`, i.e. 8 bits per second.) -/
theorem claim_C4_transfer_formula (sim : NetworkSimulator) (n : ℤ) (rng : ℕ → ℚ) (k : ℕ)
    (hb : 0 < sim.bandwidth_mbps) (_hn : 0 ≤ n) :
    ((simulate_network sim rng k).dropped = false →
      simulate_transfer sim n rng k =
        some { events := (simulate_network sim rng k).events ++
                 [NetEvent.sleep ((n : ℚ) * 8 / (sim.bandwidth_mbps * 1000000))],
               dropped := false, next := (simulate_network sim rng k).next }) ∧
    ((simulate_network sim rng k).dropped = true →
      simulate_transfer sim n rng k = some (simulate_network sim rng k)) := by
  have hbps : sim.bandwidth_mbps * 1000000 ≠ 0 := by positivity
  constructor <;> intro h <;> simp [simulate_transfer, h, hb, hbps]

/-- Witness for the amended C4 at zero latency, zero loss, 8 Mbps, 100 bytes:
the one extra sleep is `(100 * 8) / (8 * 1_000_000)` seconds. -/
theorem claim_C4_transfer_formula_witness :
    simulate_transfer ⟨0, 0, 8⟩ 100 rngZero 0 =
      some { events := [NetEvent.sleep ((100 : ℚ) * 8 / (8 * 1000000))],
             dropped := false, next := 0 } := by
  have h := (claim_C4_transfer_formula ⟨0, 0, 8⟩ 100 rngZero 0 (by norm_num) (by norm_num)).1
    (by simp [simulate_network])
  simpa [simulate_network] using h

/-- Claim C9: with `packet_loss_rate = 1` every draw `r < 1` triggers the
drop, so `simulate_network` always raises the drop error. -/
theorem claim_C9_full_loss_always_drops (sim : NetworkSimulator) (rng : ℕ → ℚ) (k : ℕ)
    (h1 : sim.packet_loss_rate = 1) (h2 : rng k < 1) :
    (simulate_network sim rng k).dropped = true := by
  simp [simulate_network, h1, h2]

/-- Witness for C9 at loss rate 1, draw 0. -/
theorem claim_C9_full_loss_always_drops_witness :
    rngZero 0 < 1 ∧ (simulate_network ⟨25, 1, 0⟩ rngZero 0).dropped = true := by
  exact ⟨by norm_num [rngZero],
    claim_C9_full_loss_always_drops ⟨25, 1, 0⟩ rngZero 0 rfl (by norm_num [rngZero])⟩

/-- If every line of a block arrives within the duration budget, none is a
read timeout and none carries a terminal event, `listen_for_events` collects
the block's parsed payloads and continues with the remaining lines. -/
theorem listen_for_events_append (D : ℚ) (pre rest : List (ℚ × SseItem))
    (h1 : ∀ p ∈ pre, p.1 ≤ D)
    (h2 : ∀ p ∈ pre, p.2 ≠ SseItem.readTimeout)
    (h3 : ∀ m ∈ parsedMsgs pre, isCompleted m = false) :
    listen_for_events D (pre ++ rest) =
      parsedMsgs pre ++ listen_for_events D rest := by
  induction pre with
  | nil => simp [parsedMsgs]
  | cons p pre ih =>
    obtain ⟨t, item⟩ := p
    have hnt : ¬ D < t := not_lt.mpr (h1 _ (List.mem_cons_self _ _))
    have ih' := ih (fun q hq => h1 q (List.mem_cons_of_mem _ hq))
      (fun q hq => h2 q (List.mem_cons_of_mem _ hq))
    cases item with
    | readTimeout => exact absurd rfl (h2 _ (List.mem_cons_self _ _))
    | otherLine =>
      have h3' : ∀ m ∈ parsedMsgs pre, isCompleted m = false := by
        intro m hm
        exact h3 m (by simpa [parsedMsgs] using hm)
      simp [listen_for_events, hnt, parsedMsgs, ih' h3']
    | dataLine op =>
      cases op with
      | none =>
        have h3' : ∀ m ∈ parsedMsgs pre, isCompleted m = false := by
          intro m hm
          exact h3 m (by simpa [parsedMsgs] using hm)
        simp [listen_for_events, hnt, parsedMsgs, ih' h3']
      | some m =>
        have hmem : m ∈ parsedMsgs ((t, SseItem.dataLine (some m)) :: pre) := by
          simp [parsedMsgs]
        have hm := h3 m hmem
        have h3' : ∀ m' ∈ parsedMsgs pre, isCompleted m' = false := by
          intro m' hm'
          refine h3 m' ?_
          simp only [parsedMsgs, List.filterMap_cons] at *
          exact List.mem_cons_of_mem _ hm'
        simp [listen_for_events, hnt, hm, parsedMsgs, ih' h3']

/-- Claim C5: consumption bounded by terminal event.  If the lines before the
first terminal event are within the duration budget, are not read timeouts
and carry no terminal payload, and the terminal event (params.status =
"completed") itself arrives within budget, then `listen_for_events` returns
exactly the parsed events up to and including the terminal one — whatever
further lines are queued after it are never read (the result does not depend
on `post`). -/
theorem claim_C5_terminal_event_bounded (D : ℚ) (pre post : List (ℚ × SseItem))
    (t0 : ℚ) (m0 : Json)
    (h1 : ∀ p ∈ pre, p.1 ≤ D)
    (h2 : ∀ p ∈ pre, p.2 ≠ SseItem.readTimeout)
    (h3 : ∀ m ∈ parsedMsgs pre, isCompleted m = false)
    (ht0 : t0 ≤ D) (hm0 : isCompleted m0 = true) :
    listen_for_events D (pre ++ (t0, SseItem.dataLine (some m0)) :: post) =
      parsedMsgs pre ++ [m0] := by
  rw [listen_for_events_append D pre _ h1 h2 h3]
  simp [listen_for_events, not_lt.mpr ht0, hm0]

/-- Claim C6: a malformed (non-JSON-parseable) data line arriving within the
budget is silently skipped: deleting it from the stream does not change the
returned events at all — it is not appended, it does not end consumption, and
the total function raises nothing. -/
theorem claim_C6_malformed_skipped (D : ℚ) (pre post : List (ℚ × SseItem))
    (t : ℚ) (ht : t ≤ D) :
    listen_for_events D (pre ++ (t, SseItem.dataLine none) :: post) =
      listen_for_events D (pre ++ post) := by
  induction pre with
  | nil => simp [listen_for_events, not_lt.mpr ht]
  | cons p pre ih =>
    obtain ⟨t1, item⟩ := p
    cases item with
    | readTimeout => simp [listen_for_events]
    | otherLine => by_cases h : D < t1 <;> simp [listen_for_events, h, ih]
    | dataLine op =>
      cases op with
      | none => by_cases h : D < t1 <;> simp [listen_for_events, h, ih]
      | some m =>
        by_cases h : D < t1
        · simp [listen_for_events, h]
        · by_cases hc : isCompleted m <;> simp [listen_for_events, h, hc, ih]

/-- Claim C7: consumption bounded by duration.  On a stream with no terminal
event, once a line is observed after the budget `D` (or the read itself times
out there), `listen_for_events` stops and returns exactly the partial events
read so far — possibly the empty list — and, being a total function into
`List Json`, raises nothing; the lines after the cutoff are never read. -/
theorem claim_C7_duration_bounded (D : ℚ) (pre post : List (ℚ × SseItem))
    (t0 : ℚ) (item : SseItem)
    (h1 : ∀ p ∈ pre, p.1 ≤ D)
    (h2 : ∀ p ∈ pre, p.2 ≠ SseItem.readTimeout)
    (h3 : ∀ m ∈ parsedMsgs pre, isCompleted m = false)
    (ht0 : D < t0) :
    listen_for_events D (pre ++ (t0, item) :: post) = parsedMsgs pre := by
  rw [listen_for_events_append D pre _ h1 h2 h3]
  cases item with
  | dataLine op => cases op <;> simp [listen_for_events, ht0]
  | otherLine => simp [listen_for_events, ht0]
  | readTimeout => simp [listen_for_events]

/-- A progress notification shaped like the ones `run_mcp_task` queues on the
bundled server (`src/servers/mcp_server.py`). -/
def progressEvent (n : ℚ) : Json :=
  Json.jobj [("jsonrpc", Json.jstr "2.0"),
             ("method", Json.jstr "notifications/progress"),
             ("params", Json.jobj [("progress", Json.jnum n),
                                   ("status", Json.jstr "running")])]

/-- The terminal completion notification the bundled server queues. -/
def completedEvent : Json :=
  Json.jobj [("jsonrpc", Json.jstr "2.0"),
             ("method", Json.jstr "notifications/progress"),
             ("params", Json.jobj [("progress", Json.jnum 100),
                                   ("status", Json.jstr "completed")])]

/-- Witness for C5: a stream emitting progress 10, progress 50, completed,
with one further event queued, returns exactly the first three events. -/
theorem claim_C5_terminal_event_bounded_witness :
    listen_for_events 5
      [(0, SseItem.dataLine (some (progressEvent 10))),
       (1, SseItem.dataLine (some (progressEvent 50))),
       (2, SseItem.dataLine (some completedEvent)),
       (3, SseItem.dataLine (some (progressEvent 60)))] =
      [progressEvent 10, progressEvent 50, completedEvent] := by
  have h := claim_C5_terminal_event_bounded 5
    [(0, SseItem.dataLine (some (progressEvent 10))),
     (1, SseItem.dataLine (some (progressEvent 50)))]
    [(3, SseItem.dataLine (some (progressEvent 60)))] 2 completedEvent
    (by intro p hp; simp at hp; rcases hp with rfl | rfl <;> norm_num)
    (by intro p hp; simp at hp; rcases hp with rfl | rfl <;> simp)
    (by intro m hm; simp [parsedMsgs] at hm; rcases hm with rfl | rfl <;> rfl)
    (by norm_num) (by rfl)
  simpa [parsedMsgs] using h

/-- Witness for C6: dropping a malformed data line from the middle of a
stream leaves the returned events unchanged. -/
theorem claim_C6_malformed_skipped_witness :
    listen_for_events 5
      [(0, SseItem.dataLine (some (progressEvent 10))),
       (1, SseItem.dataLine none),
       (2, SseItem.dataLine (some completedEvent))] =
    listen_for_events 5
      [(0, SseItem.dataLine (some (progressEvent 10))),
       (2, SseItem.dataLine (some completedEvent))] := by
  exact claim_C6_malformed_skipped 5
    [(0, SseItem.dataLine (some (progressEvent 10)))]
    [(2, SseItem.dataLine (some completedEvent))] 1 (by norm_num)

/-- Witness for C7: a never-terminal stream whose second line is observed
after the 5-second budget yields exactly the one event read before the
cutoff. -/
theorem claim_C7_duration_bounded_witness :
    listen_for_events 5
      [(0, SseItem.dataLine (some (progressEvent 10))),
       (6, SseItem.dataLine (some (progressEvent 50))),
       (7, SseItem.dataLine (some completedEvent))] =
      [progressEvent 10] := by
  have h := claim_C7_duration_bounded 5
    [(0, SseItem.dataLine (some (progressEvent 10)))]
    [(7, SseItem.dataLine (some completedEvent))] 6
    (SseItem.dataLine (some (progressEvent 50)))
    (by intro p hp; simp at hp; subst hp; norm_num)
    (by intro p hp; simp at hp; subst hp; simp)
    (by intro m hm; simp [parsedMsgs] at hm; subst hm; rfl)
    (by norm_num)
  simpa [parsedMsgs] using h

/-- Claim C8: with both endpoints unreachable (every HTTP request raises
`ConnectError`), the very first scenario, `bench_multi_turn_chat`, has no
`except` clause, so the exception escapes `run_all_benchmarks` and the batch
dies before any later scenario runs — contradicting the spec's "each scenario
is isolated" error-handling design (which scenarios 4-6 do implement). -/
theorem claim_C8_batch_not_isolated :
    bench_multi_turn_chat ⟨true, rngZero⟩ 20 = Except.error "httpx.ConnectError" ∧
    run_all_benchmarks ⟨true, rngZero⟩ = Except.error "httpx.ConnectError" ∧
    bench_stock_ticker ⟨true, rngZero⟩ 5 = Except.ok [] := by
  exact ⟨rfl, rfl, rfl⟩

/-- Claim C10: `connect_sse` assigns and returns a session id ONLY from a
`data:` line whose payload fails `json.loads`; every data line whose payload
parses as valid JSON is skipped, so a stream all of whose data payloads are
valid JSON — such as the bundled server's, whose connection event is the
numeric `str(time.time())` — never yields a session id. -/
theorem claim_C10_session_id_only_from_unparseable :
    (∀ lines : List ConnLine,
        (∀ raw p, ConnLine.dataLine raw p ∈ lines → p.isSome) →
        connect_sse lines = none) ∧
    (∀ (lines : List ConnLine) (s : String),
        connect_sse lines = some s →
        ∃ raw, ConnLine.dataLine raw none ∈ lines ∧ s = raw.trim) := by
  constructor
  · intro lines
    induction lines with
    | nil => intro _; rfl
    | cons line rest ih =>
      intro h
      cases line with
      | eventConnection =>
        simpa [connect_sse] using ih fun raw p hp => h raw p (List.mem_cons_of_mem _ hp)
      | otherLine =>
        simpa [connect_sse] using ih fun raw p hp => h raw p (List.mem_cons_of_mem _ hp)
      | dataLine raw op =>
        cases op with
        | none => simpa using h raw none (List.mem_cons_self _ _)
        | some j =>
          simpa [connect_sse] using ih fun raw p hp => h raw p (List.mem_cons_of_mem _ hp)
  · intro lines
    induction lines with
    | nil => intro s hs; simp [connect_sse] at hs
    | cons line rest ih =>
      intro s hs
      cases line with
      | eventConnection =>
        obtain ⟨raw, hmem, hval⟩ := ih s (by simpa [connect_sse] using hs)
        exact ⟨raw, List.mem_cons_of_mem _ hmem, hval⟩
      | otherLine =>
        obtain ⟨raw, hmem, hval⟩ := ih s (by simpa [connect_sse] using hs)
        exact ⟨raw, List.mem_cons_of_mem _ hmem, hval⟩
      | dataLine raw op =>
        cases op with
        | none =>
          refine ⟨raw, List.mem_cons_self _ _, ?_⟩
          simpa [connect_sse] using hs.symm
        | some j =>
          obtain ⟨raw', hmem, hval⟩ := ih s (by simpa [connect_sse] using hs)
          exact ⟨raw', List.mem_cons_of_mem _ hmem, hval⟩

/-- Witness for C10: on the bundled server's stream shape — a connection
event whose data payload is the numeric `str(time.time())`, followed by a
JSON notification — `connect_sse` returns no session id. -/
theorem claim_C10_session_id_only_from_unparseable_witness :
    connect_sse
      [ConnLine.eventConnection,
       ConnLine.dataLine "1760227200.123" (some (Json.jnum (1760227200123 / 1000))),
       ConnLine.dataLine "data" (some completedEvent)] = none := by
  apply claim_C10_session_id_only_from_unparseable.1
  intro raw p hp
  simp at hp
  rcases hp with ⟨-, rfl⟩ | ⟨-, rfl⟩ <;> rfl

end RestVsMcp
